import Mathlib

/-!
# WebWindow.Native (Windows): scheme dispatch, window procedure, show/attach, invoke

A shallow embedding of `src/WebWindow.Native/WebWindow.Windows.cpp`.

Conventions of the embedding.

* Pointers and handles (`HWND`, `WebWindow*`, COM interface pointers, function
  pointers) are natural numbers, `0` being `NULL` / `nullptr`.
* Text is a list of code points. `std::string` holds UTF-8 and `std::wstring`
  holds UTF-16 in the source; the transcoding done by `MultiByteToWideChar`
  and `WideCharToMultiByte` is the identity on code points. The character
  `':'` is one code unit in both encodings, so the test `colonPos > 0` and
  the value `substr(0, colonPos)` denote the same text at either level.
* A `const char*` / `LPCWSTR` argument is the memory found at the pointer;
  the text it denotes ends before the first NUL (`cstr`).
* `std::map` is a finite partial function; `operator[]` inserts a
  value-initialised entry when the key is missing (`stdIndex`).
* Calls into the window system, the browser engine and host callbacks are
  recorded as `Effect`s in the order the source performs them.
-/

/-! ## Text -/

/-- The string terminator. -/
def NUL : Char := Char.ofNat 0

/-- Text denoted by a NUL-terminated pointer: the characters before the first NUL. -/
def cstr (p : List Char) : List Char :=
  p.takeWhile (fun c => c != NUL)

/-- Value of `std::string::npos`, that is `size_t(-1)` on a 64-bit build. -/
def npos : Nat := 2 ^ 64 - 1

/-- Search of `std::string::find`, counting positions from `pos`. -/
def findFrom (ch : Char) : List Char → Nat → Nat
  | [], _ => npos
  | c :: rest, pos => if c = ch then pos else findFrom ch rest (pos + 1)

/-- Model of `s.find(ch, 0)`: index of the first `ch`, `npos` when there is none. -/
def find (s : List Char) (ch : Char) : Nat :=
  findFrom ch s 0

/-- Model of `s.substr(0, count)`: the characters `[0, min(count, size))`. -/
def substr0 (s : List Char) (count : Nat) : List Char :=
  s.take count

/-- Model of `Utf8ToLPWSTR` (lines 190-196): `MultiByteToWideChar` with length `-1`
counts and converts the terminator too, so the `std::wstring` built from its
count holds the text followed by one NUL. -/
def Utf8ToLPWSTR (str : List Char) : List Char :=
  cstr str ++ [NUL]

/-- Model of `LPWSTRToUtf8` (lines 198-204): `WideCharToMultiByte` with length `-1`
counts and converts the terminator too, so the `std::string` built from its
count holds the text followed by one NUL. -/
def LPWSTRToUtf8 (str : List Char) : List Char :=
  cstr str ++ [NUL]

/-! ## `std::map` -/

/-- A `std::map<K, V>`: `none` where the key is absent. -/
abbrev StdMap (K V : Type) := K → Option V

/-- The empty map. -/
def stdEmpty {K V : Type} : StdMap K V := fun _ => none

/-- Model of `m[k] = v`. -/
def stdAssign {K V : Type} [DecidableEq K] (m : StdMap K V) (k : K) (v : V) : StdMap K V :=
  fun x => if x = k then some v else m x

/-- Model of reading `m[k]`: the stored value, or a fresh entry holding `dflt`
(the value-initialised `V`) which is inserted into the map. -/
def stdIndex {K V : Type} [DecidableEq K] (m : StdMap K V) (k : K) (dflt : V) : V × StdMap K V :=
  match m k with
  | some v => (v, m)
  | none => (dflt, stdAssign m k dflt)

/-- Model of `m.erase(k)`. -/
def stdErase {K V : Type} [DecidableEq K] (m : StdMap K V) (k : K) : StdMap K V :=
  fun x => if x = k then none else m x

/-! ## Window instances -/

/-- Window handle; `0` is `NULL`. -/
abbrev HWND := Nat

/-- An address; `0` is `nullptr`. -/
abbrev Ptr := Nat

/-- Modelled from the spec: the class declaration (`WebWindow.h`) is not among the
sources. The spec lists the attributes of a Window Instance as a parent, an attached
Browser Engine Instance (absent until first shown), a scheme to handler mapping and a
message-received callback; the field names and their use are those of
`WebWindow.Windows.cpp`. The scheme table is indexed with a `std::string` (line 257) and
with a `UTF8String` (line 329), so its key is `std::string` and its value a function
pointer that is compared with `NULL` (line 258). -/
structure WebWindow where
  _hWnd : HWND
  _parent : Ptr
  _webMessageReceivedCallback : Ptr
  _webviewEnvironment : Ptr
  _webviewWindow : Ptr
  _schemeToRequestHandler : StdMap (List Char) Ptr

/-- Modelled from the spec: the typedef `WebResourceRequestedCallback` is not among the
sources; the spec describes a handler as "URI in; byte buffer + content-type out, or no
response", and line 262 calls it as `handler(url, &numBytes, &contentType)`.
What one call hands back: the returned
pointer (`none` for `nullptr`, else the bytes stored there), `*outNumBytes`, and
`*outContentType` (`none` for `nullptr`, else the memory at the pointer). -/
structure HandlerReturn where
  dotNetResponse : Option (List Nat)
  numBytes : Int
  contentType : Option (List Char)

/-- The host side: what calling function pointer `fn` with the given URL text returns. -/
abbrev HostHandlers := Ptr → List Char → HandlerReturn

/-- Arguments given to `CreateWebResourceResponse`: stream content, status code,
reason phrase and header text. -/
structure WebResourceResponse where
  content : List Nat
  statusCode : Int
  reasonPhrase : List Char
  headers : List Char
deriving DecidableEq, Repr

/-- Conversion of `int numBytes` to the `UINT cbInit` parameter of `SHCreateMemStream`. -/
def toUINT (n : Int) : Nat :=
  (n % 2 ^ 32).toNat

/-- Model of `SHCreateMemStream(pInit, cbInit)`: a stream over the first `cbInit` bytes at `pInit`. -/
def SHCreateMemStream (pInit : List Nat) (cbInit : Nat) : List Nat :=
  pInit.take cbInit

/-- Model of `WebWindow::AddCustomScheme` (lines 327-330). The key is the
`std::string` built from the `UTF8String` argument. -/
def WebWindow.AddCustomScheme (this : WebWindow) (scheme : List Char) (requestHandler : Ptr) :
    WebWindow :=
  { this with
    _schemeToRequestHandler := stdAssign this._schemeToRequestHandler (cstr scheme) requestHandler }

/-- Result of one run of the resource-requested callback. -/
structure RequestOutcome where
  window : WebWindow
  calls : List (Ptr × List Char)
  response : Option WebResourceResponse

/-- Model of the `WebResourceRequested` handler registered in `AttachWebView`
(lines 245-279). `uri` is the memory returned by `req->get_Uri`. `calls` lists
the handler invocations as (function pointer, URL text passed), `response` is
the argument of `args->put_Response` when that call is made. -/
def WebWindow.WebResourceRequested (host : HostHandlers) (this : WebWindow) (uri : List Char) :
    RequestOutcome :=
  let uriString := LPWSTRToUtf8 uri
  let colonPos := find uriString ':'
  if colonPos > 0 then
    let scheme := substr0 uriString colonPos
    let looked := stdIndex this._schemeToRequestHandler scheme 0
    let handler := looked.1
    let this1 := { this with _schemeToRequestHandler := looked.2 }
    if handler ≠ 0 then
      let url := cstr uriString
      let ret := host handler url
      match ret.dotNetResponse, ret.contentType with
      | some data, some contentType =>
        let contentTypeWS := Utf8ToLPWSTR contentType
        let dataStream := SHCreateMemStream data (toUINT ret.numBytes)
        let response : WebResourceResponse :=
          { content := dataStream, statusCode := 200, reasonPhrase := "OK".toList,
            headers := cstr ("Content-Type: ".toList ++ contentTypeWS) }
        { window := this1, calls := [(handler, url)], response := some response }
      | _, _ => { window := this1, calls := [(handler, url)], response := none }
    else
      { window := this1, calls := [], response := none }
  else
    { window := this, calls := [], response := none }

/-- A freshly constructed window object: no browser engine, empty scheme table. -/
def WebWindow.fresh (hWnd : HWND) (parent : Ptr) (callback : Ptr) : WebWindow :=
  { _hWnd := hWnd, _parent := parent, _webMessageReceivedCallback := callback,
    _webviewEnvironment := 0, _webviewWindow := 0, _schemeToRequestHandler := stdEmpty }

/-- The scheme of a URI in the words of the glossary: the text before its first colon. -/
def schemeOf (uri : List Char) : List Char :=
  uri.takeWhile (fun c => c != ':')

/-- A sample host: handler `7` answers every URL with the bytes of `<h1>hi</h1>` and
the content type `text/html`; every other handler answers with no payload and no
content type. -/
def sampleHost : HostHandlers := fun fn _ =>
  if fn = 7 then
    { dotNetResponse := some [60, 104, 49, 62, 104, 105, 60, 47, 104, 49, 62], numBytes := 11,
      contentType := some "text/html".toList }
  else
    { dotNetResponse := none, numBytes := 0, contentType := none }

/-- Registration calls and resource requests made on one window, in order. -/
inductive TableOp where
  | addCustomScheme (scheme : List Char) (requestHandler : Ptr)
  | resourceRequested (uri : List Char)

/-- Effect of one `TableOp` on the window object. -/
def TableOp.apply (host : HostHandlers) (this : WebWindow) : TableOp → WebWindow
  | .addCustomScheme scheme requestHandler => this.AddCustomScheme scheme requestHandler
  | .resourceRequested uri => (this.WebResourceRequested host uri).window

/-- The window object after a sequence of registrations and requests. -/
def runTableOps (host : HostHandlers) (this : WebWindow) (ops : List TableOp) : WebWindow :=
  ops.foldl (TableOp.apply host) this

/-- Every non-null handler of the table sits under a key without NUL. -/
def NulFreeTable (w : WebWindow) : Prop :=
  ∀ k h, w._schemeToRequestHandler k = some h → h ≠ 0 → NUL ∉ k


/-! ## Window system and browser engine calls -/

/-- A `RECT`. -/
structure RECT where
  left : Int
  top : Int
  right : Int
  bottom : Int
deriving DecidableEq, Repr

/-- Calls made by the source into the window system, the browser engine and the host,
with the arguments that matter here. COM calls carry the interface pointer they are made
through. -/
inductive Effect where
  | ShowWindow (hWnd : HWND) (nCmdShow : Nat)
  | PostQuitMessage (nExitCode : Int)
  | MessageBox (hWnd : HWND) (text caption : List Char) (uType : Nat)
  | deleteParams (params : Ptr)
  | callback (action : Ptr)
  | setIsCompleted (waitInfo : Ptr)
  | notify_one (waitInfo : Ptr)
  | DefWindowProc (hwnd : HWND) (uMsg wParam lParam : Nat)
  | put_Bounds (webview : Ptr) (bounds : RECT)
  | CreateWebView2EnvironmentWithDetails
  | CreateWebView (env : Ptr) (hWnd : HWND)
  | get_Settings (webview : Ptr)
  | put_IsScriptEnabled
  | put_AreDefaultScriptDialogsEnabled
  | put_IsWebMessageEnabled
  | AddScriptToExecuteOnDocumentCreated (webview : Ptr)
  | add_WebMessageReceived (webview : Ptr)
  | add_WebResourceRequested (webview : Ptr)
deriving DecidableEq, Repr

/-- The record posted by `ShowMessage` (lines 29-34). -/
structure ShowMessageParams where
  title : List Char
  body : List Char
  type : Nat

/-- What the platform answers when asked: the client rectangle of a window, the result
of `DefWindowProc`, the `ShowMessageParams` stored at an address, and the message text
of `_com_error(hr).ErrorMessage()`. -/
structure Platform where
  GetClientRect : HWND → RECT
  DefWindowProc : HWND → Nat → Nat → Nat → Int
  paramsAt : Ptr → ShowMessageParams
  ErrorMessage : Int → List Char

/-- Window message numbers of the platform headers and of lines 10-11. -/
def WM_DESTROY : Nat := 0x0002

/-- Window message `WM_SIZE`. -/
def WM_SIZE : Nat := 0x0005

/-- First application message number. -/
def WM_USER : Nat := 0x0400

/-- Line 10. -/
def WM_USER_SHOWMESSAGE : Nat := WM_USER + 0x0001

/-- Line 11. -/
def WM_USER_INVOKE : Nat := WM_USER + 0x0002

/-- Message box style `MB_OK`. -/
def MB_OK : Nat := 0

/-- The `HRESULT` of success. -/
def S_OK : Int := 0

/-- The `HRESULT` `E_FAIL` (0x80004005 as a signed 32-bit value). -/
def E_FAIL : Int := -2147467259

/-- The globals of lines 20-21 together with the `WebWindow` objects in memory, by address. -/
structure Process where
  messageLoopRootWindowHandle : HWND
  hwndToWebWindow : StdMap HWND Ptr
  objects : Ptr → WebWindow

/-- Process state at start: zero-initialised root handle, empty registry. -/
def Process.initial (objects : Ptr → WebWindow) : Process :=
  { messageLoopRootWindowHandle := 0, hwndToWebWindow := stdEmpty, objects := objects }

/-- Model of the constructor (lines 50-71) running at address `this`. `hWnd` is the handle
`CreateWindowExW` returned. -/
def WebWindow.construct (g : Process) (this : Ptr) (parent : Ptr)
    (webMessageReceivedCallback : Ptr) (hWnd : HWND) : Process :=
  { g with
    objects := fun p =>
      if p = this then WebWindow.fresh hWnd parent webMessageReceivedCallback else g.objects p
    hwndToWebWindow := stdAssign g.hwndToWebWindow hWnd this }

/-- Model of `WebWindow::RefitContent` (lines 128-136); it assigns no field. -/
def WebWindow.RefitContent (P : Platform) (this : WebWindow) : List Effect :=
  if this._webviewWindow ≠ 0 then
    [Effect.put_Bounds this._webviewWindow (P.GetClientRect this._hWnd)]
  else
    []

/-- What one call of `WindowProc` leaves behind. -/
structure ProcResult where
  process : Process
  effects : List Effect
  result : Int

/-- Model of `WindowProc` (lines 78-126). The `ACTION` run for `WM_USER_INVOKE` is host
code; it is recorded as an effect and what it does to the process is not part of this
function. -/
def WindowProc (P : Platform) (g : Process) (hwnd : HWND) (uMsg wParam lParam : Nat) :
    ProcResult :=
  if uMsg = WM_DESTROY then
    let g1 := { g with hwndToWebWindow := stdErase g.hwndToWebWindow hwnd }
    if hwnd = g.messageLoopRootWindowHandle then
      { process := g1, effects := [Effect.PostQuitMessage 0], result := 0 }
    else
      { process := g1, effects := [], result := 0 }
  else if uMsg = WM_USER_SHOWMESSAGE then
    let params := P.paramsAt wParam
    { process := g,
      effects := [Effect.MessageBox hwnd (cstr params.body) (cstr params.title) params.type,
        Effect.deleteParams wParam],
      result := 0 }
  else if uMsg = WM_USER_INVOKE then
    { process := g,
      effects := [Effect.callback wParam, Effect.setIsCompleted lParam, Effect.notify_one lParam],
      result := 0 }
  else if uMsg = WM_SIZE then
    let looked := stdIndex g.hwndToWebWindow hwnd 0
    let g1 := { g with hwndToWebWindow := looked.2 }
    if looked.1 ≠ 0 then
      { process := g1, effects := (g.objects looked.1).RefitContent P, result := 0 }
    else
      { process := g1, effects := [], result := 0 }
  else
    { process := g, effects := [Effect.DefWindowProc hwnd uMsg wParam lParam],
      result := P.DefWindowProc hwnd uMsg wParam lParam }

/-- A `MSG` as far as `DispatchMessage` uses it. -/
structure MSG where
  hwnd : HWND
  message : Nat
  wParam : Nat
  lParam : Nat

/-- Whether a list of effects contains a call of `PostQuitMessage`. -/
def postsQuit (effects : List Effect) : Bool :=
  effects.any (fun e => match e with
    | Effect.PostQuitMessage _ => true
    | _ => false)

/-- Outcome of a message loop: the process state, everything done, and whether `GetMessage`
returned 0 so that the loop was left. -/
structure LoopResult where
  process : Process
  effects : List Effect
  exited : Bool

/-- Model of the loop of lines 163-167 on the messages `GetMessage` hands out until the
queue is empty. Following the platform rule quoted in the spec (the loop "still finishes
draining already-queued events before exiting"), `GetMessage` returns 0 once the queue is
empty and a quit was posted; with an empty queue and no quit posted it keeps waiting. -/
def messageLoop (P : Platform) (g : Process) (quit : Bool) : List MSG → LoopResult
  | [] => { process := g, effects := [], exited := quit }
  | msg :: rest =>
    let r := WindowProc P g msg.hwnd msg.message msg.wParam msg.lParam
    let r2 := messageLoop P r.process (quit || postsQuit r.effects) rest
    { r2 with effects := r.effects ++ r2.effects }

/-- Model of `WebWindow::WaitForExit` (lines 157-168) on the object at address `this`. -/
def WebWindow.WaitForExit (P : Platform) (g : Process) (this : Ptr) (queue : List MSG) :
    LoopResult :=
  messageLoop P { g with messageLoopRootWindowHandle := (g.objects this)._hWnd } false queue

/-- Constructions and window events, as they reach the process. -/
inductive WindowEvent where
  | constructed (this parent webMessageReceivedCallback : Ptr) (hWnd : HWND)
  | destroyed (hwnd : HWND)
  | resized (hwnd : HWND) (wParam lParam : Nat)
  | showMessage (hwnd : HWND) (params : Ptr)
  | invoke (hwnd : HWND) (action waitInfo : Ptr)

/-- The code run for one `WindowEvent`. -/
def WindowEvent.apply (P : Platform) (g : Process) : WindowEvent → Process
  | .constructed this parent cb hWnd => WebWindow.construct g this parent cb hWnd
  | .destroyed hwnd => (WindowProc P g hwnd WM_DESTROY 0 0).process
  | .resized hwnd wParam lParam => (WindowProc P g hwnd WM_SIZE wParam lParam).process
  | .showMessage hwnd params => (WindowProc P g hwnd WM_USER_SHOWMESSAGE params 0).process
  | .invoke hwnd action waitInfo => (WindowProc P g hwnd WM_USER_INVOKE action waitInfo).process

/-- The process after a sequence of events. -/
def runEvents (P : Platform) (g : Process) (events : List WindowEvent) : Process :=
  events.foldl (WindowEvent.apply P) g

/-- Bookkeeping of the handles created and not yet destroyed, each with the object that
owns it: a construction adds its handle, a destruction removes it, nothing else counts. -/
def liveStep (live : StdMap HWND Ptr) : WindowEvent → StdMap HWND Ptr
  | .constructed this _ _ hWnd => fun h => if h = hWnd then some this else live h
  | .destroyed hwnd => fun h => if h = hwnd then none else live h
  | _ => live

/-- The handles created and not yet destroyed after a sequence of events (the reference
the registry is compared with). -/
def liveHandles (events : List WindowEvent) : StdMap HWND Ptr :=
  events.foldl liveStep stdEmpty

/-! ## Show and the creation of the browser engine -/

/-- What the browser engine does during one `AttachWebView`: the `HRESULT` returned by
`CreateWebView2EnvironmentWithDetails`, and the arguments `(result, pointer)` of each
completion handler if it is invoked while `AttachWebView` pumps messages (`none` if the
pumping ends before). A creation request that did not return `S_OK` invokes no handler. -/
structure WebViewCreation where
  envResult : Int
  environmentCompleted : Option (Int × Ptr)
  webViewCompleted : Option (Int × Ptr)

/-- How a member function ended: normally, or by calling a member through a null
pointer (`attempted` is that call); `effects` is what was done before. -/
inductive Outcome where
  | done (window : WebWindow) (effects : List Effect)
  | nullDereference (effects : List Effect) (attempted : Effect)

/-- The calls completed before the member function ended. -/
def Outcome.effects : Outcome → List Effect
  | Outcome.done _ effects => effects
  | Outcome.nullDereference effects _ => effects

/-- The call made through a null pointer, if the member function ended that way. -/
def Outcome.attempted : Outcome → Option Effect
  | Outcome.done _ _ => none
  | Outcome.nullDereference _ attempted => some attempted

/-- The object as the member function left it, if it returned. -/
def Outcome.window : Outcome → Option WebWindow
  | Outcome.done window _ => some window
  | Outcome.nullDereference _ _ => none

/-- The caption of the error dialog (line 294). -/
def errorCaption : List Char := "Error instantiating webview".toList

/-- Model of `WebWindow::AttachWebView` (lines 206-307). -/
def WebWindow.AttachWebView (P : Platform) (this : WebWindow) (c : WebViewCreation) : Outcome :=
  let e0 := [Effect.CreateWebView2EnvironmentWithDetails]
  if c.envResult ≠ S_OK then
    Outcome.done this
      (e0 ++ [Effect.MessageBox this._hWnd (P.ErrorMessage c.envResult) errorCaption MB_OK])
  else
    match c.environmentCompleted with
    | none => Outcome.done this e0
    | some (_, env) =>
      let this1 := { this with _webviewEnvironment := env }
      if env = 0 then
        Outcome.nullDereference e0 (Effect.CreateWebView 0 this._hWnd)
      else
        let e1 := e0 ++ [Effect.CreateWebView env this._hWnd]
        match c.webViewCompleted with
        | none => Outcome.done this1 e1
        | some (_, webview) =>
          let this2 := if webview ≠ 0 then { this1 with _webviewWindow := webview } else this1
          if this2._webviewWindow = 0 then
            Outcome.nullDereference e1 (Effect.get_Settings 0)
          else
            Outcome.done this2
              (e1 ++ [Effect.get_Settings this2._webviewWindow,
                Effect.put_IsScriptEnabled,
                Effect.put_AreDefaultScriptDialogsEnabled,
                Effect.put_IsWebMessageEnabled,
                Effect.AddScriptToExecuteOnDocumentCreated this2._webviewWindow,
                Effect.add_WebMessageReceived this2._webviewWindow,
                Effect.add_WebResourceRequested this2._webviewWindow] ++
                this2.RefitContent P)

/-- Whether a list of effects contains a message box. -/
def showsDialog (effects : List Effect) : Bool :=
  effects.any (fun e => match e with
    | Effect.MessageBox _ _ _ _ => true
    | _ => false)

/-- A sample platform: every client rectangle is 800 by 600, `DefWindowProc` answers 0,
every `ShowMessageParams` is empty, every error text is `error`. -/
def samplePlatform : Platform :=
  { GetClientRect := fun _ => { left := 0, top := 0, right := 800, bottom := 600 },
    DefWindowProc := fun _ _ _ _ => 0,
    paramsAt := fun _ => { title := [], body := [], type := 0 },
    ErrorMessage := fun _ => "error".toList }

/-- Sample memory: the object at every address is a fresh window with handle 1. -/
def sampleObjects : Ptr → WebWindow := fun _ => WebWindow.fresh 1 0 0

/-- An engine whose browser-instance completion handler reports failure without an instance. -/
def creationNoInstance : WebViewCreation :=
  { envResult := S_OK, environmentCompleted := some (S_OK, 5),
    webViewCompleted := some (E_FAIL, 0) }

/-- Every resize event of the sequence is addressed to a handle that has a registry entry
when it is dispatched. -/
def ResizesHitRegistry (P : Platform) : Process → List WindowEvent → Prop
  | _, [] => True
  | g, e :: rest =>
    (match e with
      | .resized hwnd _ _ => g.hwndToWebWindow hwnd ≠ none
      | _ => True) ∧ ResizesHitRegistry P (e.apply P g) rest

/-! ## Invoke and the `WM_USER_INVOKE` handler as two threads

One `Invoke` call (lines 179-188) on the calling thread and the handling of its message
(lines 101-112) on the UI thread, as an interleaving of their statements. The mutex
`invokeLockMutex` is shared with every other `Invoke` call of the process, which is why it
can also be held by some other thread. -/

/-- Where the thread inside `Invoke` stands.
* `entry`: `waitInfo` is value-initialised (line 181), `PostMessageW` not yet called;
* `posted`: line 182 done, about to lock `invokeLockMutex` (line 186);
* `locked`: holds the mutex, about to evaluate the predicate of `wait` (line 187);
* `mustWait`: predicate was false, still holds the mutex, about to block;
* `waiting`: blocked on `completionNotifier`, mutex released;
* `woken`: unblocked, about to lock the mutex again;
* `returned`: predicate was true, mutex released, `Invoke` has returned. -/
inductive CallerPc where
  | entry
  | posted
  | locked
  | mustWait
  | waiting
  | woken
  | returned
deriving DecidableEq, Repr

/-- Where the UI thread stands with the message of this `Invoke`.
* `notDispatched`: `WindowProc` not yet entered for it;
* `inCallback`: inside `callback()` (line 104);
* `afterCallback`: `callback()` has returned, about to lock the mutex (line 107);
* `holdsLock`: holds the mutex, about to assign `isCompleted` (line 108);
* `flagSet`: assignment done, about to release the mutex (line 109);
* `released`: about to call `notify_one` (line 110);
* `finished`: `notify_one` done (line 111). -/
inductive HandlerPc where
  | notDispatched
  | inCallback
  | afterCallback
  | holdsLock
  | flagSet
  | released
  | finished
deriving DecidableEq, Repr

/-- Who holds `invokeLockMutex`. -/
inductive MutexOwner where
  | free
  | caller
  | handler
  | other
deriving DecidableEq, Repr

/-- The arguments of one `Invoke` call as they travel in its message (line 182): the
window handle, the `ACTION` (in `wParam`) and the address of its `waitInfo` (in `lParam`). -/
structure InvokeCall where
  hWnd : HWND
  callback : Ptr
  waitInfo : Ptr
deriving DecidableEq, Repr

/-- The state shared by the two threads. `executed` lists, in order, the calls of the
`WM_USER_INVOKE` case that the UI thread has completed so far: `Effect.callback` is added
when `callback()` returns, `Effect.setIsCompleted` when line 108 has assigned the flag,
`Effect.notify_one` when line 110 is done. -/
structure InvokeState where
  caller : CallerPc
  handler : HandlerPc
  queued : Bool
  isCompleted : Bool
  mutex : MutexOwner
  executed : List Effect
deriving DecidableEq, Repr

/-- What can happen next: a statement of either thread, `PostMessageW` failing, a
spurious wake-up of the condition variable, another thread taking or releasing the mutex. -/
inductive InvokeAction where
  | callerStep
  | callerPostFails
  | handlerStep
  | spuriousWake
  | otherLock
  | otherUnlock
deriving DecidableEq, Repr

/-- State on entry of `Invoke`, after `InvokeWaitInfo waitInfo = {}` (line 181). -/
def InvokeState.start : InvokeState :=
  { caller := CallerPc.entry, handler := HandlerPc.notDispatched, queued := false,
    isCompleted := false, mutex := MutexOwner.free, executed := [] }

/-- One step of the `Invoke` call `call`. An action that is not enabled leaves the state
as it is. -/
def InvokeState.step (call : InvokeCall) (s : InvokeState) : InvokeAction → InvokeState
  | InvokeAction.callerStep =>
    match s.caller with
    | CallerPc.entry => { s with caller := CallerPc.posted, queued := true }
    | CallerPc.posted =>
      if s.mutex = MutexOwner.free then
        { s with caller := CallerPc.locked, mutex := MutexOwner.caller }
      else s
    | CallerPc.locked =>
      if s.isCompleted then { s with caller := CallerPc.returned, mutex := MutexOwner.free }
      else { s with caller := CallerPc.mustWait }
    | CallerPc.mustWait => { s with caller := CallerPc.waiting, mutex := MutexOwner.free }
    | CallerPc.waiting => s
    | CallerPc.woken =>
      if s.mutex = MutexOwner.free then
        { s with caller := CallerPc.locked, mutex := MutexOwner.caller }
      else s
    | CallerPc.returned => s
  | InvokeAction.callerPostFails =>
    match s.caller with
    | CallerPc.entry => { s with caller := CallerPc.posted }
    | _ => s
  | InvokeAction.handlerStep =>
    match s.handler with
    | HandlerPc.notDispatched =>
      if s.queued then { s with handler := HandlerPc.inCallback, queued := false } else s
    | HandlerPc.inCallback =>
      { s with
        handler := HandlerPc.afterCallback
        executed := s.executed ++ [Effect.callback call.callback] }
    | HandlerPc.afterCallback =>
      if s.mutex = MutexOwner.free then
        { s with handler := HandlerPc.holdsLock, mutex := MutexOwner.handler }
      else s
    | HandlerPc.holdsLock =>
      { s with
        handler := HandlerPc.flagSet
        isCompleted := true
        executed := s.executed ++ [Effect.setIsCompleted call.waitInfo] }
    | HandlerPc.flagSet => { s with handler := HandlerPc.released, mutex := MutexOwner.free }
    | HandlerPc.released =>
      { s with
        handler := HandlerPc.finished
        caller := if s.caller = CallerPc.waiting then CallerPc.woken else s.caller
        executed := s.executed ++ [Effect.notify_one call.waitInfo] }
    | HandlerPc.finished => s
  | InvokeAction.spuriousWake =>
    if s.caller = CallerPc.waiting then { s with caller := CallerPc.woken } else s
  | InvokeAction.otherLock =>
    if s.mutex = MutexOwner.free then { s with mutex := MutexOwner.other } else s
  | InvokeAction.otherUnlock =>
    if s.mutex = MutexOwner.other then { s with mutex := MutexOwner.free } else s

/-- The state after a schedule. -/
def InvokeState.run (call : InvokeCall) (s : InvokeState) (schedule : List InvokeAction) :
    InvokeState :=
  schedule.foldl (InvokeState.step call) s

/-- The callables that were run to completion, in order, according to a list of effects. -/
def callbacksOf (effects : List Effect) : List Ptr :=
  effects.filterMap (fun e => match e with
    | Effect.callback action => some action
    | _ => none)

/-- The calls of the `WM_USER_INVOKE` case that are behind the UI thread at each point
of the handler (used to state the invariant). -/
def InvokeCall.doneAt (call : InvokeCall) : HandlerPc → List Effect
  | HandlerPc.notDispatched => []
  | HandlerPc.inCallback => []
  | HandlerPc.afterCallback => [Effect.callback call.callback]
  | HandlerPc.holdsLock => [Effect.callback call.callback]
  | HandlerPc.flagSet => [Effect.callback call.callback, Effect.setIsCompleted call.waitInfo]
  | HandlerPc.released => [Effect.callback call.callback, Effect.setIsCompleted call.waitInfo]
  | HandlerPc.finished =>
    [Effect.callback call.callback, Effect.setIsCompleted call.waitInfo,
      Effect.notify_one call.waitInfo]

/-- Whether the UI thread is past the assignment of line 108. -/
def InvokeState.pastAssignment (s : InvokeState) : Bool :=
  match s.handler with
  | HandlerPc.flagSet => true
  | HandlerPc.released => true
  | HandlerPc.finished => true
  | _ => false

/-- The invariant of the interleaving, as far as program counters, flag and mutex go. -/
def InvokeState.inv (s : InvokeState) : Bool :=
  (s.isCompleted == s.pastAssignment) &&
  (s.caller != CallerPc.returned || s.isCompleted) &&
  (s.caller != CallerPc.waiting || s.handler != HandlerPc.finished) &&
  (s.caller != CallerPc.mustWait || !s.isCompleted) &&
  ((s.mutex == MutexOwner.caller) ==
    (s.caller == CallerPc.locked || s.caller == CallerPc.mustWait)) &&
  ((s.mutex == MutexOwner.handler) ==
    (s.handler == HandlerPc.holdsLock || s.handler == HandlerPc.flagSet)) &&
  (s.caller != CallerPc.entry || (s.handler == HandlerPc.notDispatched && !s.queued))

/-! ## Posting invoke messages -/

theorem findFrom_of_not_mem (ch : Char) (s : List Char) (pos : Nat) (h : ch ∉ s) :
    findFrom ch s pos = npos := by
  induction s generalizing pos with
  | nil => rfl
  | cons c rest ih =>
    have hc : c ≠ ch := fun e => h (by simp [e])
    have hr : ch ∉ rest := fun e => h (by simp [e])
    simp [findFrom, hc, ih _ hr]

theorem findFrom_append (ch : Char) (a b : List Char) (pos : Nat) (h : ch ∉ a) :
    findFrom ch (a ++ ch :: b) pos = pos + a.length := by
  induction a generalizing pos with
  | nil => simp [findFrom]
  | cons c rest ih =>
    have hc : c ≠ ch := fun e => h (by simp [e])
    have hr : ch ∉ rest := fun e => h (by simp [e])
    simp [findFrom, hc, ih _ hr]
    omega

theorem cstr_eq_self (p : List Char) (h : NUL ∉ p) : cstr p = p := by
  unfold cstr
  rw [List.takeWhile_eq_self_iff]
  intro c hc
  have : c ≠ NUL := fun e => h (e ▸ hc)
  simpa using this

theorem cstr_append_nul (p q : List Char) (h : NUL ∉ p) : cstr (p ++ NUL :: q) = p := by
  induction p with
  | nil => simp [cstr]
  | cons c rest ih =>
    have hc : c ≠ NUL := fun e => h (by simp [e])
    have hr : NUL ∉ rest := fun e => h (by simp [e])
    have ih2 := ih hr
    have hb : (c != NUL) = true := by simpa using hc
    unfold cstr at ih2 ⊢
    simp [List.takeWhile_cons, hb, ih2]

theorem nul_not_mem_cstr (p : List Char) : NUL ∉ cstr p := by
  intro h
  have := List.mem_takeWhile_imp h
  simp at this

theorem colon_not_mem_schemeOf (uri : List Char) : ':' ∉ schemeOf uri := by
  intro h
  have := List.mem_takeWhile_imp h
  simp at this

theorem schemeOf_split (uri : List Char) (h : ':' ∈ uri) :
    ∃ rest, uri = schemeOf uri ++ ':' :: rest := by
  induction uri with
  | nil => simp at h
  | cons c tl ih =>
    by_cases hc : c = ':'
    · exact ⟨tl, by simp [schemeOf, List.takeWhile, hc]⟩
    · have htl : ':' ∈ tl := by
        rcases List.mem_cons.mp h with e | e
        · exact absurd e.symm hc
        · exact e
      obtain ⟨rest, hrest⟩ := ih htl
      refine ⟨rest, ?_⟩
      have hb : (c != ':') = true := by simpa using hc
      have : schemeOf (c :: tl) = c :: schemeOf tl := by
        simp [schemeOf, List.takeWhile_cons, hb]
      rw [this, List.cons_append, ← hrest]

theorem schemeOf_of_not_mem (uri : List Char) (h : ':' ∉ uri) : schemeOf uri = uri := by
  unfold schemeOf
  rw [List.takeWhile_eq_self_iff]
  intro c hc
  have : c ≠ ':' := fun e => h (e ▸ hc)
  simpa using this

theorem schemeOf_append_colon (s rest : List Char) (h : ':' ∉ s) :
    schemeOf (s ++ ':' :: rest) = s := by
  induction s with
  | nil => simp [schemeOf]
  | cons c tl ih =>
    have hc : c ≠ ':' := fun e => h (by simp [e])
    have hr : ':' ∉ tl := fun e => h (by simp [e])
    have ih2 := ih hr
    have hb : (c != ':') = true := by simpa using hc
    unfold schemeOf at ih2 ⊢
    simp [List.takeWhile_cons, hb, ih2]

theorem NUL_ne_colon : NUL ≠ ':' := by decide

/-- The callback on a URI `s ++ ":" ++ rest` with a non-empty colon-free `s`:
the scheme looked up is `s` and the URL passed on is the whole URI. -/
theorem WebResourceRequested_colon (host : HostHandlers) (this : WebWindow)
    (s rest : List Char) (hs : s ≠ []) (hcol : ':' ∉ s) (hnul : NUL ∉ s ++ ':' :: rest) :
    this.WebResourceRequested host (s ++ ':' :: rest) =
      (let looked := stdIndex this._schemeToRequestHandler s 0
       let this1 := { this with _schemeToRequestHandler := looked.2 }
       if looked.1 ≠ 0 then
         let ret := host looked.1 (s ++ ':' :: rest)
         match ret.dotNetResponse, ret.contentType with
         | some data, some contentType =>
           { window := this1, calls := [(looked.1, s ++ ':' :: rest)],
             response := some
               { content := data.take (toUINT ret.numBytes), statusCode := 200,
                 reasonPhrase := "OK".toList,
                 headers := "Content-Type: ".toList ++ cstr contentType } }
         | _, _ => { window := this1, calls := [(looked.1, s ++ ':' :: rest)], response := none }
       else { window := this1, calls := [], response := none }) := by
  have hlen : 0 < s.length := List.length_pos.mpr hs
  have h1 : LPWSTRToUtf8 (s ++ ':' :: rest) = s ++ ':' :: (rest ++ [NUL]) := by
    simp [LPWSTRToUtf8, cstr_eq_self _ hnul]
  have h2 : find (s ++ ':' :: (rest ++ [NUL])) ':' = s.length := by
    simp [find, findFrom_append _ _ _ _ hcol]
  have h3 : cstr (s ++ ':' :: (rest ++ [NUL])) = s ++ ':' :: rest := by
    have := cstr_append_nul (s ++ ':' :: rest) [] hnul
    simpa using this
  have h4 : ∀ ct : List Char,
      cstr ("Content-Type: ".toList ++ Utf8ToLPWSTR ct) = "Content-Type: ".toList ++ cstr ct := by
    intro ct
    have hn : NUL ∉ "Content-Type: ".toList ++ cstr ct := by
      intro hm
      rcases List.mem_append.mp hm with e | e
      · revert e; decide
      · exact nul_not_mem_cstr ct e
    have := cstr_append_nul _ [] hn
    simpa [Utf8ToLPWSTR] using this
  unfold WebWindow.WebResourceRequested
  simp only [h1, h2, h3, h4, substr0, SHCreateMemStream, List.take_left', gt_iff_lt, hlen, if_true]

/-- The callback on a URI without any colon: `find` yields `npos`, the test
`colonPos > 0` passes, and the key looked up is the whole `std::string`,
terminator included. -/
theorem WebResourceRequested_no_colon (host : HostHandlers) (this : WebWindow)
    (uri : List Char) (hcol : ':' ∉ uri) (hnul : NUL ∉ uri) (hlen : uri.length < npos)
    (hkey : (stdIndex this._schemeToRequestHandler (uri ++ [NUL]) 0).1 = 0) :
    (this.WebResourceRequested host uri).calls = [] ∧
      (this.WebResourceRequested host uri).response = none := by
  have h1 : LPWSTRToUtf8 uri = uri ++ [NUL] := by
    simp [LPWSTRToUtf8, cstr_eq_self _ hnul]
  have hcol2 : ':' ∉ uri ++ [NUL] := by
    intro hm
    rcases List.mem_append.mp hm with e | e
    · exact hcol e
    · simp at e
      exact NUL_ne_colon e.symm
  have h2 : find (uri ++ [NUL]) ':' = npos := findFrom_of_not_mem _ _ _ hcol2
  have h3 : substr0 (uri ++ [NUL]) npos = uri ++ [NUL] := by
    unfold substr0
    apply List.take_of_length_le
    simp
    omega
  have hpos : npos > 0 := by decide
  unfold WebWindow.WebResourceRequested
  simp only [h1, h2, h3, hpos, if_true, hkey]
  simp

/-- The callback on a URI that starts with a colon: `colonPos` is `0` and nothing is looked up. -/
theorem WebResourceRequested_leading_colon (host : HostHandlers) (this : WebWindow)
    (rest : List Char) :
    (this.WebResourceRequested host (':' :: rest)).calls = [] ∧
      (this.WebResourceRequested host (':' :: rest)).response = none := by
  have h1 : ∃ t, LPWSTRToUtf8 (':' :: rest) = ':' :: t := by
    refine ⟨cstr rest ++ [NUL], ?_⟩
    have hb : (':' != NUL) = true := by decide
    simp [LPWSTRToUtf8, cstr, List.takeWhile_cons, hb]
  obtain ⟨t, ht⟩ := h1
  unfold WebWindow.WebResourceRequested
  simp [ht, find, findFrom]

/-! ## The scheme table only holds handlers under NUL-free keys -/

theorem NulFreeTable_fresh (hWnd : HWND) (parent callback : Ptr) :
    NulFreeTable (WebWindow.fresh hWnd parent callback) := by
  intro k h hk
  simp [WebWindow.fresh, stdEmpty] at hk

theorem NulFreeTable_AddCustomScheme (w : WebWindow) (scheme : List Char) (fn : Ptr)
    (hw : NulFreeTable w) : NulFreeTable (w.AddCustomScheme scheme fn) := by
  intro k h hk hh
  simp only [WebWindow.AddCustomScheme, stdAssign] at hk
  by_cases e : k = cstr scheme
  · rw [e]
    exact nul_not_mem_cstr scheme
  · rw [if_neg e] at hk
    exact hw k h hk hh

theorem stdIndex_nonnull {K : Type} [DecidableEq K] (m : StdMap K Ptr) (k x : K) (h : Ptr)
    (hx : (stdIndex m k 0).2 x = some h) (hh : h ≠ 0) : m x = some h := by
  unfold stdIndex at hx
  cases hm : m k with
  | some v => simpa [hm] using hx
  | none =>
    simp only [hm, stdAssign] at hx
    by_cases e : x = k
    · rw [if_pos e] at hx
      exact absurd (Option.some.inj hx).symm hh
    · rw [if_neg e] at hx
      exact hx

theorem WebResourceRequested_table (host : HostHandlers) (w : WebWindow) (uri x : List Char)
    (h : Ptr) (hx : (w.WebResourceRequested host uri).window._schemeToRequestHandler x = some h)
    (hh : h ≠ 0) : w._schemeToRequestHandler x = some h := by
  unfold WebWindow.WebResourceRequested at hx
  simp only at hx
  split at hx
  · split at hx
    · split at hx <;> exact stdIndex_nonnull _ _ _ _ hx hh
    · exact stdIndex_nonnull _ _ _ _ hx hh
  · exact hx

theorem NulFreeTable_runTableOps (host : HostHandlers) (ops : List TableOp) (w : WebWindow)
    (hw : NulFreeTable w) : NulFreeTable (runTableOps host w ops) := by
  induction ops generalizing w with
  | nil => exact hw
  | cons op rest ih =>
    apply ih
    cases op with
    | addCustomScheme scheme fn => exact NulFreeTable_AddCustomScheme w scheme fn hw
    | resourceRequested uri =>
      intro k h hk hh
      exact hw k h (WebResourceRequested_table host w uri k h hk hh) hh

theorem stdIndex_fst_eq_zero {K : Type} [DecidableEq K] (m : StdMap K Ptr) (k : K)
    (h : ∀ v, m k = some v → v = 0) : (stdIndex m k 0).1 = 0 := by
  unfold stdIndex
  cases hm : m k with
  | some v => simpa using h v hm
  | none => rfl

theorem stdIndex_fst_of_some {K : Type} [DecidableEq K] (m : StdMap K Ptr) (k : K) (v : Ptr)
    (h : m k = some v) : stdIndex m k 0 = (v, m) := by
  simp [stdIndex, h]

/-! ## Lemmas on the window procedure and the message loop -/

theorem postsQuit_RefitContent (P : Platform) (w : WebWindow) :
    postsQuit (w.RefitContent P) = false := by
  unfold WebWindow.RefitContent
  split <;> rfl

theorem WindowProc_root (P : Platform) (g : Process) (hwnd : HWND) (uMsg wParam lParam : Nat) :
    (WindowProc P g hwnd uMsg wParam lParam).process.messageLoopRootWindowHandle
      = g.messageLoopRootWindowHandle := by
  unfold WindowProc
  dsimp only
  split_ifs <;> rfl

theorem WindowProc_objects (P : Platform) (g : Process) (hwnd : HWND)
    (uMsg wParam lParam : Nat) :
    (WindowProc P g hwnd uMsg wParam lParam).process.objects = g.objects := by
  unfold WindowProc
  dsimp only
  split_ifs <;> rfl

theorem WindowProc_postsQuit (P : Platform) (g : Process) (hwnd : HWND)
    (uMsg wParam lParam : Nat) :
    postsQuit (WindowProc P g hwnd uMsg wParam lParam).effects = true ↔
      (uMsg = WM_DESTROY ∧ hwnd = g.messageLoopRootWindowHandle) := by
  unfold WindowProc
  by_cases h1 : uMsg = WM_DESTROY
  · by_cases h2 : hwnd = g.messageLoopRootWindowHandle
    · simp [h1, h2, postsQuit]
    · simp [h1, h2, postsQuit]
  · simp only [h1, if_false, false_and, iff_false]
    split_ifs
    · simp [postsQuit]
    · simp [postsQuit]
    · exact Bool.eq_false_iff.mp (postsQuit_RefitContent P _)
    · simp [postsQuit]
    · simp [postsQuit]

theorem messageLoop_root (P : Platform) (msgs : List MSG) (g : Process) (quit : Bool) :
    (messageLoop P g quit msgs).process.messageLoopRootWindowHandle
      = g.messageLoopRootWindowHandle := by
  induction msgs generalizing g quit with
  | nil => rfl
  | cons m rest ih =>
    simp only [messageLoop]
    rw [ih, WindowProc_root]

theorem messageLoop_exited (P : Platform) (msgs : List MSG) (g : Process) (quit : Bool) :
    (messageLoop P g quit msgs).exited = true ↔
      (quit = true ∨ ∃ m ∈ msgs, m.message = WM_DESTROY ∧
        m.hwnd = g.messageLoopRootWindowHandle) := by
  induction msgs generalizing g quit with
  | nil => simp [messageLoop]
  | cons m rest ih =>
    simp only [messageLoop]
    rw [ih, WindowProc_root, Bool.or_eq_true, WindowProc_postsQuit]
    simp only [List.mem_cons, exists_eq_or_imp]
    tauto

/-- One event keeps the registry equal to the bookkeeping of live handles, provided a
resize is addressed to a handle that has a registry entry. -/
theorem apply_registry_eq_live (P : Platform) (g : Process) (live : StdMap HWND Ptr)
    (e : WindowEvent) (hreg : g.hwndToWebWindow = live)
    (hres : match e with
      | .resized hwnd _ _ => g.hwndToWebWindow hwnd ≠ none
      | _ => True) :
    (e.apply P g).hwndToWebWindow = liveStep live e := by
  cases e with
  | constructed this parent cb hWnd =>
    funext h
    simp [WindowEvent.apply, WebWindow.construct, liveStep, stdAssign, hreg]
  | destroyed hwnd =>
    funext h
    simp only [WindowEvent.apply, WindowProc, liveStep, stdErase, if_true, ← hreg]
    split <;> rfl
  | resized hwnd wParam lParam =>
    simp only at hres
    obtain ⟨v, hv⟩ := Option.ne_none_iff_exists'.mp hres
    have hnot : WM_SIZE ≠ WM_DESTROY := by decide
    have hnot2 : WM_SIZE ≠ WM_USER_SHOWMESSAGE := by decide
    have hnot3 : WM_SIZE ≠ WM_USER_INVOKE := by decide
    simp only [WindowEvent.apply, WindowProc, liveStep, hnot, hnot2, hnot3, if_false, if_true,
      stdIndex, hv, ← hreg]
    split <;> rfl
  | showMessage hwnd params =>
    have hnot : WM_USER_SHOWMESSAGE ≠ WM_DESTROY := by decide
    simp [WindowEvent.apply, WindowProc, liveStep, hnot, hreg]
  | invoke hwnd action waitInfo =>
    have hnot : WM_USER_INVOKE ≠ WM_DESTROY := by decide
    have hnot2 : WM_USER_INVOKE ≠ WM_USER_SHOWMESSAGE := by decide
    simp [WindowEvent.apply, WindowProc, liveStep, hnot, hnot2, hreg]

/-- As long as every resize event is addressed to a handle that has a registry entry,
the registry is exactly the map of handles created and not yet destroyed. -/
theorem registry_eq_liveHandles (P : Platform) (objects : Ptr → WebWindow)
    (events : List WindowEvent)
    (h : ResizesHitRegistry P (Process.initial objects) events) :
    (runEvents P (Process.initial objects) events).hwndToWebWindow = liveHandles events := by
  have key : ∀ (evs : List WindowEvent) (g : Process) (live : StdMap HWND Ptr),
      g.hwndToWebWindow = live → ResizesHitRegistry P g evs →
      (evs.foldl (WindowEvent.apply P) g).hwndToWebWindow = evs.foldl liveStep live := by
    intro evs
    induction evs with
    | nil => intro g live hreg _; exact hreg
    | cons e rest ih =>
      intro g live hreg hres
      simp only [List.foldl_cons]
      exact ih _ _ (apply_registry_eq_live P g live e hreg hres.1) hres.2
  exact key events _ _ rfl h

/-! ## Lemmas on Show -/

theorem inv_start : InvokeState.start.inv = true := by decide

set_option maxHeartbeats 4000000 in
theorem inv_step (call : InvokeCall) (s : InvokeState) (a : InvokeAction) (h : s.inv = true) :
    (s.step call a).inv = true := by
  rcases s with ⟨c, hd, q, f, m, ex⟩
  cases a <;> cases c <;> cases hd <;> cases q <;> cases f <;> cases m <;>
    first
      | exact absurd h (ne_true_of_eq_false rfl)
      | rfl

theorem executed_step (call : InvokeCall) (s : InvokeState) (a : InvokeAction)
    (h : s.executed = call.doneAt s.handler) :
    (s.step call a).executed = call.doneAt (s.step call a).handler := by
  rcases s with ⟨c, hd, q, f, m, ex⟩
  simp only at h
  subst h
  cases a <;> cases c <;> cases hd <;> cases q <;> cases f <;> cases m <;> rfl

theorem inv_run (call : InvokeCall) (schedule : List InvokeAction) (s : InvokeState)
    (h : s.inv = true) (hex : s.executed = call.doneAt s.handler) :
    (s.run call schedule).inv = true ∧
      (s.run call schedule).executed = call.doneAt (s.run call schedule).handler := by
  induction schedule generalizing s with
  | nil => exact ⟨h, hex⟩
  | cons a rest ih => exact ih _ (inv_step call s a h) (executed_step call s a hex)

theorem flag_set_only_by_handler (call : InvokeCall) (s : InvokeState) (a : InvokeAction)
    (h0 : s.isCompleted = false) (h1 : (s.step call a).isCompleted = true) :
    a = InvokeAction.handlerStep ∧ s.handler = HandlerPc.holdsLock ∧
      (s.step call a).executed = s.executed ++ [Effect.setIsCompleted call.waitInfo] := by
  rcases s with ⟨c, hd, q, f, m, ex⟩
  simp only at h0
  subst h0
  cases a <;> cases c <;> cases hd <;> cases q <;> cases m <;>
    first
      | exact absurd h1 (ne_true_of_eq_false rfl)
      | exact ⟨rfl, rfl, rfl⟩

theorem inv_facts (call : InvokeCall) (s : InvokeState) (h : s.inv = true) :
    (s.isCompleted = true → s.pastAssignment = true) ∧
      (s.caller = CallerPc.returned → s.isCompleted = true) ∧
      (s.caller = CallerPc.waiting → s.handler ≠ HandlerPc.finished) ∧
      (s.handler = HandlerPc.finished →
        (s.run call [InvokeAction.otherUnlock, InvokeAction.callerStep,
          InvokeAction.callerStep, InvokeAction.callerStep]).caller = CallerPc.returned) := by
  rcases s with ⟨c, hd, q, f, m, ex⟩
  cases c <;> cases hd <;> cases q <;> cases f <;> cases m <;>
    first
      | exact absurd h (ne_true_of_eq_false rfl)
      | (refine ⟨?_, ?_, ?_, ?_⟩ <;> intros <;>
          first | rfl | contradiction | (intro hx; cases hx))

theorem doneAt_facts (P : Platform) (g : Process) (call : InvokeCall) (hd : HandlerPc) :
    (callbacksOf (call.doneAt hd) = [] ∨ callbacksOf (call.doneAt hd) = [call.callback]) ∧
      ((hd = HandlerPc.flagSet ∨ hd = HandlerPc.released ∨ hd = HandlerPc.finished) →
        (call.doneAt hd).take 2 =
            [Effect.callback call.callback, Effect.setIsCompleted call.waitInfo] ∧
          callbacksOf (call.doneAt hd) = [call.callback]) ∧
      (hd = HandlerPc.finished →
        call.doneAt hd =
          (WindowProc P g call.hWnd WM_USER_INVOKE call.callback call.waitInfo).effects) := by
  have hw : (WindowProc P g call.hWnd WM_USER_INVOKE call.callback call.waitInfo).effects =
      [Effect.callback call.callback, Effect.setIsCompleted call.waitInfo,
        Effect.notify_one call.waitInfo] := by
    have h1 : WM_USER_INVOKE ≠ WM_DESTROY := by decide
    have h2 : WM_USER_INVOKE ≠ WM_USER_SHOWMESSAGE := by decide
    simp [WindowProc, h1, h2]
  cases hd <;> simp [InvokeCall.doneAt, callbacksOf, hw]

theorem pastAssignment_iff (s : InvokeState) :
    s.pastAssignment = true ↔
      (s.handler = HandlerPc.flagSet ∨ s.handler = HandlerPc.released ∨
        s.handler = HandlerPc.finished) := by
  rcases s with ⟨c, hd, q, f, m, ex⟩
  cases hd <;> simp [InvokeState.pastAssignment]

/-- After a failed `PostMessageW` nothing of the handler ever runs and `Invoke` never
returns, whatever the schedule. -/
theorem post_fails_never_runs (call : InvokeCall) (schedule : List InvokeAction) :
    (InvokeState.start.run call (InvokeAction.callerPostFails :: schedule)).executed = [] ∧
      (InvokeState.start.run call (InvokeAction.callerPostFails :: schedule)).caller
        ≠ CallerPc.returned := by
  have key : ∀ (sch : List InvokeAction) (s : InvokeState),
      (s.queued = false ∧ s.handler = HandlerPc.notDispatched ∧ s.isCompleted = false ∧
        s.caller ≠ CallerPc.entry ∧ s.caller ≠ CallerPc.returned ∧ s.executed = []) →
      (s.run call sch).executed = [] ∧ (s.run call sch).caller ≠ CallerPc.returned := by
    intro sch
    induction sch with
    | nil => intro s h; exact ⟨h.2.2.2.2.2, h.2.2.2.2.1⟩
    | cons a rest ih =>
      intro s h
      apply ih
      rcases s with ⟨c, hd, q, f, m, ex⟩
      obtain ⟨h1, h2, h3, h4, h5, h6⟩ := h
      simp only at h1 h2 h3 h4 h5 h6
      subst h1 h2 h3 h6
      cases a <;> cases c <;> cases m <;> simp [InvokeState.step] at h4 h5 ⊢
  exact key schedule _ ⟨rfl, rfl, rfl, (by intro hx; cases hx), (by intro hx; cases hx), rfl⟩

/-! ## The message loop runs the queued callables in queue order -/

/-- A creation request that does not return `S_OK` ends in one error dialog on the window,
with the platform text of the result, and leaves the object as it was. -/
theorem AttachWebView_request_refused (P : Platform) (this : WebWindow) (c : WebViewCreation)
    (h : c.envResult ≠ S_OK) :
    this.AttachWebView P c = Outcome.done this
      [Effect.CreateWebView2EnvironmentWithDetails,
        Effect.MessageBox this._hWnd (P.ErrorMessage c.envResult) errorCaption MB_OK] := by
  simp [WebWindow.AttachWebView, h]

/-- A browser-instance completion handler invoked without an instance, on a window that has
none, ends in a call through the null `_webviewWindow`, and no dialog is shown. -/
theorem AttachWebView_null_instance (P : Platform) (this : WebWindow) (c : WebViewCreation)
    (r1 r2 : Int) (env : Ptr) (h0 : this._webviewWindow = 0) (hr : c.envResult = S_OK)
    (he : c.environmentCompleted = some (r1, env)) (henv : env ≠ 0)
    (hw : c.webViewCompleted = some (r2, 0)) :
    this.AttachWebView P c = Outcome.nullDereference
      [Effect.CreateWebView2EnvironmentWithDetails, Effect.CreateWebView env this._hWnd]
      (Effect.get_Settings 0) := by
  simp [WebWindow.AttachWebView, hr, he, henv, hw, h0]

/-- An environment completion handler invoked without an environment ends in a call of
`CreateWebView` through the null pointer. -/
theorem AttachWebView_null_environment (P : Platform) (this : WebWindow) (c : WebViewCreation)
    (r1 : Int) (hr : c.envResult = S_OK) (he : c.environmentCompleted = some (r1, 0)) :
    this.AttachWebView P c = Outcome.nullDereference
      [Effect.CreateWebView2EnvironmentWithDetails] (Effect.CreateWebView 0 this._hWnd) := by
  simp [WebWindow.AttachWebView, hr, he]

/-! ## Scheme dispatch (C1, C2, C3) -/

/-- C1 as stated fails for the empty scheme: with a handler registered under the empty
string that returns a payload and a content type, the request `:x` (whose text before the
first colon is empty) calls no handler and sets no response, because the callback only
looks a scheme up when `colonPos > 0`. -/
theorem C1_counterexample_empty_scheme :
    ((WebWindow.fresh 1 0 0).AddCustomScheme [] 7)._schemeToRequestHandler
        (schemeOf [':', 'x']) = some 7 ∧
      (sampleHost 7 [':', 'x']).dotNetResponse ≠ none ∧
      (sampleHost 7 [':', 'x']).contentType ≠ none ∧
      (((WebWindow.fresh 1 0 0).AddCustomScheme [] 7).WebResourceRequested sampleHost
        [':', 'x']).calls = [] ∧
      (((WebWindow.fresh 1 0 0).AddCustomScheme [] 7).WebResourceRequested sampleHost
        [':', 'x']).response = none := by
  decide

/-- C1 (amended): for every request URI containing a colon whose scheme (the text before
the first colon) is non-empty and has a non-null handler `h` in the table, the callback
calls exactly `h`, once, with the full URI; it sets a response if and only if `h` returned
both a non-null payload and a non-null content type; that response has status 200, reason
`OK`, header `Content-Type: ` followed by the supplied content-type text, and as body the
first `numBytes` bytes of the payload. -/
theorem C1_dispatch_registered_scheme (host : HostHandlers) (this : WebWindow)
    (uri : List Char) (h : Ptr) (hnul : NUL ∉ uri) (hcolon : ':' ∈ uri)
    (hne : schemeOf uri ≠ []) (hreg : this._schemeToRequestHandler (schemeOf uri) = some h)
    (hh : h ≠ 0) :
    (this.WebResourceRequested host uri).calls = [(h, uri)] ∧
      ((this.WebResourceRequested host uri).response ≠ none ↔
        ((host h uri).dotNetResponse ≠ none ∧ (host h uri).contentType ≠ none)) ∧
      (∀ data contentType, (host h uri).dotNetResponse = some data →
        (host h uri).contentType = some contentType →
        (this.WebResourceRequested host uri).response = some
          { content := data.take (toUINT (host h uri).numBytes), statusCode := 200,
            reasonPhrase := ['O', 'K'],
            headers := "Content-Type: ".toList ++ cstr contentType }) ∧
      (∀ n : Nat, (host h uri).numBytes = (n : Int) → n < 2 ^ 32 →
        toUINT (host h uri).numBytes = n) := by
  obtain ⟨rest, hsplit⟩ := schemeOf_split uri hcolon
  have hcol := colon_not_mem_schemeOf uri
  generalize schemeOf uri = s at hsplit hcol hne hreg
  subst hsplit
  have hlook := stdIndex_fst_of_some _ _ _ hreg
  have key := WebResourceRequested_colon host this s rest hne hcol hnul
  simp only [hlook, hh, ne_eq, not_false_eq_true, if_true] at key
  rw [key]
  refine ⟨?_, ?_, ?_, ?_⟩
  · split <;> rfl
  · cases hd : (host h (s ++ ':' :: rest)).dotNetResponse <;>
      cases hc : (host h (s ++ ':' :: rest)).contentType <;> simp
  · intro data contentType hd hc
    simp [hd, hc]
  · intro n hn hlt
    rw [hn]
    unfold toUINT
    have : ((n : Int) % 2 ^ 32) = (n : Int) := Int.emod_eq_of_lt (by omega) (by omega)
    rw [this]
    simp

/-- C1 witness: scheme `app` registered with the sample handler, request `app://test/page`. -/
theorem C1_dispatch_registered_scheme_witness :
    (((WebWindow.fresh 1 0 0).AddCustomScheme "app".toList 7).WebResourceRequested sampleHost
        "app://test/page".toList).calls = [(7, "app://test/page".toList)] ∧
      (((WebWindow.fresh 1 0 0).AddCustomScheme "app".toList 7).WebResourceRequested sampleHost
        "app://test/page".toList).response = some
          { content := [60, 104, 49, 62, 104, 105, 60, 47, 104, 49, 62], statusCode := 200,
            reasonPhrase := ['O', 'K'], headers := "Content-Type: text/html".toList } :=
  have t := C1_dispatch_registered_scheme sampleHost
    ((WebWindow.fresh 1 0 0).AddCustomScheme "app".toList 7) "app://test/page".toList 7
    (by decide) (by decide) (by decide) (by decide) (by decide)
  ⟨t.1, by decide⟩

/-- C2: on a window whose scheme table was built by any sequence of `AddCustomScheme`
calls and resource requests, a request whose URI has no colon, or whose scheme (the text
before the first colon) has no non-null handler in the table, calls no handler and sets no
response. -/
theorem C2_default_loading (host : HostHandlers) (hWnd : HWND) (parent callback : Ptr)
    (ops : List TableOp) (uri : List Char) (hnul : NUL ∉ uri) (hlen : uri.length < npos)
    (hno : ':' ∉ uri ∨
      ∀ h, (runTableOps host (WebWindow.fresh hWnd parent callback) ops)._schemeToRequestHandler
        (schemeOf uri) = some h → h = 0) :
    ((runTableOps host (WebWindow.fresh hWnd parent callback) ops).WebResourceRequested host
        uri).calls = [] ∧
      ((runTableOps host (WebWindow.fresh hWnd parent callback) ops).WebResourceRequested host
        uri).response = none := by
  have hinv := NulFreeTable_runTableOps host ops _ (NulFreeTable_fresh hWnd parent callback)
  generalize runTableOps host (WebWindow.fresh hWnd parent callback) ops = w at hno hinv
  by_cases hcolon : ':' ∈ uri
  · have hreg : ∀ h, w._schemeToRequestHandler (schemeOf uri) = some h → h = 0 := by
      rcases hno with e | e
      · exact absurd hcolon e
      · exact e
    obtain ⟨rest, hsplit⟩ := schemeOf_split uri hcolon
    have hcol := colon_not_mem_schemeOf uri
    generalize schemeOf uri = s at hsplit hcol hreg
    subst hsplit
    by_cases hs : s = []
    · subst hs
      exact WebResourceRequested_leading_colon host w rest
    · have key := WebResourceRequested_colon host w s rest hs hcol hnul
      have hz := stdIndex_fst_eq_zero _ _ hreg
      simp only [hz, ne_eq, not_true_eq_false, if_false] at key
      rw [key]
      exact ⟨rfl, rfl⟩
  · apply WebResourceRequested_no_colon host w uri hcolon hnul hlen
    apply stdIndex_fst_eq_zero
    intro v hv
    by_contra hne
    exact hinv _ _ hv hne (by simp)

/-- C2 witness: scheme `foo` is registered; the colon-free request `foo` is left alone. -/
theorem C2_default_loading_witness :
    (NUL ∉ "foo".toList ∧ "foo".toList.length < npos) ∧
      ((runTableOps sampleHost (WebWindow.fresh 1 0 0)
          [TableOp.addCustomScheme "foo".toList 7]).WebResourceRequested sampleHost
        "foo".toList).calls = [] ∧
      ((runTableOps sampleHost (WebWindow.fresh 1 0 0)
          [TableOp.addCustomScheme "foo".toList 7]).WebResourceRequested sampleHost
        "foo".toList).response = none :=
  ⟨⟨by decide, by decide⟩,
    C2_default_loading sampleHost 1 0 0 [TableOp.addCustomScheme "foo".toList 7] "foo".toList
      (by decide) (by decide) (Or.inl (by decide))⟩

/-- C3 as stated fails for the empty scheme string: after registering `7` and then `8`
under the empty string, the request `:x`, whose scheme is empty, is dispatched to no
handler at all. -/
theorem C3_counterexample_empty_scheme :
    schemeOf [':', 'x'] = [] ∧
      ((((WebWindow.fresh 1 0 0).AddCustomScheme [] 7).AddCustomScheme []
        8).WebResourceRequested sampleHost [':', 'x']).calls ≠ [(8, [':', 'x'])] ∧
      ((((WebWindow.fresh 1 0 0).AddCustomScheme [] 7).AddCustomScheme []
        8).WebResourceRequested sampleHost [':', 'x']).calls = [] := by
  decide

/-- C3 (amended): for every non-empty scheme string `s` and handlers `h1`, `h2` with `h2`
non-null, after `AddCustomScheme(s, h1)` then `AddCustomScheme(s, h2)` a request
`s ++ ":" ++ rest` is dispatched to `h2`, once, and to no other handler (so never to a
different `h1`); every other key of the table is unchanged. -/
theorem C3_second_registration_wins (host : HostHandlers) (this : WebWindow)
    (s rest : List Char) (h1 h2 : Ptr) (hs : s ≠ []) (hcol : ':' ∉ s)
    (hnul : NUL ∉ s ++ ':' :: rest) (h2n : h2 ≠ 0) :
    (((this.AddCustomScheme s h1).AddCustomScheme s h2).WebResourceRequested host
        (s ++ ':' :: rest)).calls = [(h2, s ++ ':' :: rest)] ∧
      (h1 ≠ h2 → ∀ c ∈ (((this.AddCustomScheme s h1).AddCustomScheme s h2).WebResourceRequested
        host (s ++ ':' :: rest)).calls, c.1 ≠ h1) ∧
      (∀ k, k ≠ s →
        ((this.AddCustomScheme s h1).AddCustomScheme s h2)._schemeToRequestHandler k =
          this._schemeToRequestHandler k) := by
  have hsn : NUL ∉ s := fun e => hnul (List.mem_append_left _ e)
  have hreg : ((this.AddCustomScheme s h1).AddCustomScheme s h2)._schemeToRequestHandler s
      = some h2 := by
    simp [WebWindow.AddCustomScheme, stdAssign, cstr_eq_self _ hsn]
  have hlook := stdIndex_fst_of_some _ _ _ hreg
  have key := WebResourceRequested_colon host
    ((this.AddCustomScheme s h1).AddCustomScheme s h2) s rest hs hcol hnul
  simp only [hlook, h2n, ne_eq, not_false_eq_true, if_true] at key
  have hcalls : (((this.AddCustomScheme s h1).AddCustomScheme s h2).WebResourceRequested host
        (s ++ ':' :: rest)).calls = [(h2, s ++ ':' :: rest)] := by
    rw [key]
    split <;> rfl
  refine ⟨hcalls, ?_, ?_⟩
  · intro hne c hc
    rw [hcalls] at hc
    simp at hc
    rw [hc]
    exact fun e => hne e.symm
  · intro k hk
    simp [WebWindow.AddCustomScheme, stdAssign, cstr_eq_self _ hsn, hk]

/-- C3 witness: `app` registered with `9`, then with `7`; `app://test/page` goes to `7`. -/
theorem C3_second_registration_wins_witness :
    ("app".toList ≠ [] ∧ ':' ∉ "app".toList ∧ NUL ∉ "app".toList ++ ':' :: "//test/page".toList
        ∧ (7 : Ptr) ≠ 0) ∧
      ((((WebWindow.fresh 1 0 0).AddCustomScheme "app".toList 9).AddCustomScheme "app".toList
        7).WebResourceRequested sampleHost ("app".toList ++ ':' :: "//test/page".toList)).calls
        = [(7, "app".toList ++ ':' :: "//test/page".toList)] :=
  ⟨⟨by decide, by decide, by decide, by decide⟩,
    (C3_second_registration_wins sampleHost (WebWindow.fresh 1 0 0) "app".toList
      "//test/page".toList 9 7 (by decide) (by decide) (by decide) (by decide)).1⟩


/-! ## The window procedure and the message loop (C6, C7, C10) -/

/-- C6: a window-destroyed event makes the window procedure post the quit message if and
only if the destroyed handle is the root handle; `WaitForExit` sets the root handle to the
handle of its window and it stays so while the loop runs; and the loop of `WaitForExit` is
left if and only if one of the messages it dispatches is the destruction of that root
window (destroying other windows never ends it). -/
theorem C6_quit_iff_root_destroyed (P : Platform) (g : Process) (hwnd : HWND)
    (wParam lParam : Nat) (this : Ptr) (queue : List MSG) :
    ((WindowProc P g hwnd WM_DESTROY wParam lParam).effects =
        (if hwnd = g.messageLoopRootWindowHandle then [Effect.PostQuitMessage 0] else [])) ∧
      (postsQuit (WindowProc P g hwnd WM_DESTROY wParam lParam).effects = true ↔
        hwnd = g.messageLoopRootWindowHandle) ∧
      ((WebWindow.WaitForExit P g this queue).process.messageLoopRootWindowHandle
        = (g.objects this)._hWnd) ∧
      ((WebWindow.WaitForExit P g this queue).exited = true ↔
        ∃ m ∈ queue, m.message = WM_DESTROY ∧ m.hwnd = (g.objects this)._hWnd) := by
  refine ⟨?_, ?_, ?_, ?_⟩
  · unfold WindowProc
    simp only [if_true]
    split <;> rfl
  · rw [WindowProc_postsQuit]
    simp
  · unfold WebWindow.WaitForExit
    rw [messageLoop_root]
  · unfold WebWindow.WaitForExit
    rw [messageLoop_exited]
    simp

/-- C7 fails on the code: a window is constructed with handle 5 and destroyed, then a
resize for handle 5 is dispatched. No handle is live, yet reading `hwndToWebWindow[hwnd]`
in the `WM_SIZE` case has inserted the key 5 with a null instance pointer. -/
theorem C7_resize_inserts_null_entry :
    liveHandles [WindowEvent.constructed 100 0 0 5, WindowEvent.destroyed 5,
        WindowEvent.resized 5 0 0] 5 = none ∧
      (runEvents samplePlatform (Process.initial sampleObjects)
        [WindowEvent.constructed 100 0 0 5, WindowEvent.destroyed 5]).hwndToWebWindow 5
        = none ∧
      (runEvents samplePlatform (Process.initial sampleObjects)
        [WindowEvent.constructed 100 0 0 5, WindowEvent.destroyed 5,
          WindowEvent.resized 5 0 0]).hwndToWebWindow 5 = some 0 := by
  decide

/-- C10: a window-resized event returns 0 and changes no `WebWindow` object; when the
handle has no registry entry, maps to the null pointer, or maps to an object without a
browser engine instance, no call is made at all; when the object has a browser engine
instance, the one call made is `put_Bounds` on it with the client rectangle of the window
of that object. -/
theorem C10_resize (P : Platform) (g : Process) (hwnd : HWND) (wParam lParam : Nat) :
    (WindowProc P g hwnd WM_SIZE wParam lParam).result = 0 ∧
      (WindowProc P g hwnd WM_SIZE wParam lParam).process.objects = g.objects ∧
      ((g.hwndToWebWindow hwnd = none ∨ g.hwndToWebWindow hwnd = some 0 ∨
          ∃ p, g.hwndToWebWindow hwnd = some p ∧ (g.objects p)._webviewWindow = 0) →
        (WindowProc P g hwnd WM_SIZE wParam lParam).effects = []) ∧
      (∀ p, g.hwndToWebWindow hwnd = some p → p ≠ 0 → (g.objects p)._webviewWindow ≠ 0 →
        (WindowProc P g hwnd WM_SIZE wParam lParam).effects =
          [Effect.put_Bounds (g.objects p)._webviewWindow
            (P.GetClientRect (g.objects p)._hWnd)]) := by
  have hnot : WM_SIZE ≠ WM_DESTROY := by decide
  have hnot2 : WM_SIZE ≠ WM_USER_SHOWMESSAGE := by decide
  have hnot3 : WM_SIZE ≠ WM_USER_INVOKE := by decide
  refine ⟨?_, WindowProc_objects P g hwnd WM_SIZE wParam lParam, ?_, ?_⟩
  · simp only [WindowProc, hnot, hnot2, hnot3, if_false, if_true]
    split <;> rfl
  · intro h
    simp only [WindowProc, hnot, hnot2, hnot3, if_false, if_true]
    rcases h with h | h | ⟨p, h, hp⟩
    · simp [stdIndex, h]
    · simp [stdIndex, h]
    · simp only [stdIndex, h]
      split
      · simp [WebWindow.RefitContent, hp]
      · rfl
  · intro p h hp hw
    simp [WindowProc, hnot, hnot2, hnot3, stdIndex, h, hp, WebWindow.RefitContent, hw]

/-- C10 witness: with window 100 constructed on handle 5 and not yet shown, a resize of
handle 5 does nothing; with an object that has engine instance 6 it sets the bounds. -/
theorem C10_resize_witness :
    (WindowProc samplePlatform
        (WebWindow.construct (Process.initial sampleObjects) 100 0 0 5) 5 WM_SIZE 0 0).effects
        = [] ∧
      (WindowProc samplePlatform
        (WebWindow.construct
          (Process.initial (fun _ => { WebWindow.fresh 9 0 0 with _webviewWindow := 6 }))
          100 0 0 5) 7 WM_SIZE 0 0).effects = [] ∧
      (WindowProc samplePlatform
        { messageLoopRootWindowHandle := 0, hwndToWebWindow := stdAssign stdEmpty 5 100,
          objects := fun _ => { WebWindow.fresh 5 0 0 with _webviewWindow := 6 } }
        5 WM_SIZE 0 0).effects
        = [Effect.put_Bounds 6 { left := 0, top := 0, right := 800, bottom := 600 }] :=
  ⟨(C10_resize samplePlatform
      (WebWindow.construct (Process.initial sampleObjects) 100 0 0 5) 5 0 0).2.2.1
      (Or.inr (Or.inr ⟨100, by decide, by decide⟩)),
    (C10_resize samplePlatform
      (WebWindow.construct
        (Process.initial (fun _ => { WebWindow.fresh 9 0 0 with _webviewWindow := 6 }))
        100 0 0 5) 7 0 0).2.2.1 (Or.inl (by decide)),
    (C10_resize samplePlatform
      { messageLoopRootWindowHandle := 0, hwndToWebWindow := stdAssign stdEmpty 5 100,
        objects := fun _ => { WebWindow.fresh 5 0 0 with _webviewWindow := 6 } }
      5 0 0).2.2.2 100 (by decide) (by decide) (by decide)⟩

/-! ## Show and AttachWebView (C8, C9) -/

/-- C9 fails on the code: when the browser-instance completion handler reports failure
with a null instance, `AttachWebView` shows no dialog and goes on to call `get_Settings`
through the null `_webviewWindow`. -/
theorem C9_null_instance_is_used :
    ((WebWindow.fresh 1 0 0).AttachWebView samplePlatform creationNoInstance).effects =
        [Effect.CreateWebView2EnvironmentWithDetails, Effect.CreateWebView 5 1] ∧
      showsDialog
        ((WebWindow.fresh 1 0 0).AttachWebView samplePlatform creationNoInstance).effects
        = false ∧
      ((WebWindow.fresh 1 0 0).AttachWebView samplePlatform creationNoInstance).attempted =
        some (Effect.get_Settings 0) := by
  decide

/-! ## Invoke (C4, C5) -/

/-- C4: in every interleaving of one `Invoke` call with the handling of its message, the
completion flag starts false and nothing has run; the flag only ever turns true by the
assignment of the handler (line 108); when that assignment is due, `callback()` has already
run to completion; whenever the flag is true, and whenever `Invoke` has returned, the UI
thread has first completed `callback()` (the callable given to `Invoke`, exactly once) and
then the assignment; the caller is never left blocked once `notify_one` is done; and once
the handler is finished it has performed exactly the calls of the `WM_USER_INVOKE` case of
`WindowProc`, and the wait returns within the next steps of the caller, also when the
caller had not begun to wait. -/
theorem C4_invoke_returns_after_callback (P : Platform) (g : Process) (call : InvokeCall)
    (schedule : List InvokeAction) :
    (InvokeState.start.isCompleted = false ∧ InvokeState.start.executed = []) ∧
      (∀ (s : InvokeState) (a : InvokeAction), s.isCompleted = false →
        (s.step call a).isCompleted = true →
        a = InvokeAction.handlerStep ∧ s.handler = HandlerPc.holdsLock ∧
          (s.step call a).executed = s.executed ++ [Effect.setIsCompleted call.waitInfo]) ∧
      ((InvokeState.start.run call schedule).handler = HandlerPc.holdsLock →
        (InvokeState.start.run call schedule).executed = [Effect.callback call.callback]) ∧
      ((InvokeState.start.run call schedule).isCompleted = true →
        (InvokeState.start.run call schedule).executed.take 2 =
          [Effect.callback call.callback, Effect.setIsCompleted call.waitInfo]) ∧
      ((InvokeState.start.run call schedule).caller = CallerPc.returned →
        (InvokeState.start.run call schedule).isCompleted = true ∧
          (InvokeState.start.run call schedule).executed.take 2 =
            [Effect.callback call.callback, Effect.setIsCompleted call.waitInfo] ∧
          callbacksOf (InvokeState.start.run call schedule).executed = [call.callback]) ∧
      (callbacksOf (InvokeState.start.run call schedule).executed = [] ∨
        callbacksOf (InvokeState.start.run call schedule).executed = [call.callback]) ∧
      ((InvokeState.start.run call schedule).caller = CallerPc.waiting →
        (InvokeState.start.run call schedule).handler ≠ HandlerPc.finished) ∧
      ((InvokeState.start.run call schedule).handler = HandlerPc.finished →
        (InvokeState.start.run call schedule).executed =
            (WindowProc P g call.hWnd WM_USER_INVOKE call.callback call.waitInfo).effects ∧
          ((InvokeState.start.run call schedule).run call
            [InvokeAction.otherUnlock, InvokeAction.callerStep, InvokeAction.callerStep,
              InvokeAction.callerStep]).caller = CallerPc.returned) := by
  obtain ⟨hinv, hex⟩ := inv_run call schedule InvokeState.start inv_start rfl
  obtain ⟨f1, f2, f3, f4⟩ := inv_facts call _ hinv
  have hd := doneAt_facts P g call (InvokeState.start.run call schedule).handler
  have hp := pastAssignment_iff (InvokeState.start.run call schedule)
  rw [← hex] at hd
  obtain ⟨d1, d2, d3⟩ := hd
  refine ⟨⟨rfl, rfl⟩, flag_set_only_by_handler call, ?_, ?_, ?_, d1, f3, ?_⟩
  · intro h
    rw [hex, h]
    rfl
  · intro h
    exact (d2 (hp.mp (f1 h))).1
  · intro h
    exact ⟨f2 h, d2 (hp.mp (f1 (f2 h)))⟩
  · intro h
    exact ⟨d3 h, f4 h⟩

/-- C4 witness: the message is posted, the UI thread runs the whole handler before the
caller locks the mutex, and the caller then returns without blocking; callable 11 has run. -/
theorem C4_invoke_returns_after_callback_witness :
    (InvokeState.start.run { hWnd := 1, callback := 11, waitInfo := 21 }
        [InvokeAction.callerStep, InvokeAction.handlerStep,
        InvokeAction.handlerStep, InvokeAction.handlerStep, InvokeAction.handlerStep,
        InvokeAction.handlerStep, InvokeAction.handlerStep, InvokeAction.callerStep,
        InvokeAction.callerStep]).caller = CallerPc.returned ∧
      (InvokeState.start.run { hWnd := 1, callback := 11, waitInfo := 21 }
        [InvokeAction.callerStep, InvokeAction.handlerStep,
        InvokeAction.handlerStep, InvokeAction.handlerStep, InvokeAction.handlerStep,
        InvokeAction.handlerStep, InvokeAction.handlerStep, InvokeAction.callerStep,
        InvokeAction.callerStep]).isCompleted = true ∧
      (InvokeState.start.run { hWnd := 1, callback := 11, waitInfo := 21 }
        [InvokeAction.callerStep, InvokeAction.handlerStep,
        InvokeAction.handlerStep, InvokeAction.handlerStep, InvokeAction.handlerStep,
        InvokeAction.handlerStep, InvokeAction.handlerStep, InvokeAction.callerStep,
        InvokeAction.callerStep]).executed.take 2 =
          [Effect.callback 11, Effect.setIsCompleted 21] ∧
      callbacksOf (InvokeState.start.run { hWnd := 1, callback := 11, waitInfo := 21 }
        [InvokeAction.callerStep, InvokeAction.handlerStep,
        InvokeAction.handlerStep, InvokeAction.handlerStep, InvokeAction.handlerStep,
        InvokeAction.handlerStep, InvokeAction.handlerStep, InvokeAction.callerStep,
        InvokeAction.callerStep]).executed = [11] :=
  ⟨by decide,
    (C4_invoke_returns_after_callback samplePlatform (Process.initial sampleObjects)
      { hWnd := 1, callback := 11, waitInfo := 21 }
      [InvokeAction.callerStep, InvokeAction.handlerStep,
        InvokeAction.handlerStep, InvokeAction.handlerStep, InvokeAction.handlerStep,
        InvokeAction.handlerStep, InvokeAction.handlerStep, InvokeAction.callerStep,
        InvokeAction.callerStep]).2.2.2.2.1 (by decide)⟩

